import Mathlib

/-!
Shallow embedding of the IoT device discovery / protocol-driver subsystem of
the ESP32-PioSystem repository (`src/lib/IoTDeviceManager`).

The transport collaborator (`HttpClientManager`) is modelled as an oracle
mapping an HTTP verb and a URL to the response status code (the only part of
`HttpResponse` the modelled code paths inspect); a status of `0` or a negative
number is a transport-layer failure, exactly as in the source.  The FreeRTOS
clock `millis()` is modelled as an explicit `now : Nat` argument.  Functions
additionally return the list of transport calls they issue, so that
"no transport call happens on this path" claims can be stated; the source has
no such instrumentation, the call lists merely record each `get`/`post`/`del`
the embedded code performs, in order.
-/

namespace IoTMgr

/-- HTTP verbs used by the subsystem (`HttpClientManager::get/post/del`). -/
inductive Verb where
  | get
  | post
  | del
  deriving DecidableEq

/-- One transport call: verb and URL. -/
structure Call where
  verb : Verb
  url : String
  deriving DecidableEq

/-- Transport oracle: status code returned for a verb/URL pair
(`HttpResponse.statusCode`; `0`/negative = transport-layer failure). -/
abbrev Oracle := Verb → String → Int

/-- `enum class DeviceType` from `device_types.h`. -/
inductive DeviceType where
  | UNKNOWN
  | ESP32_CAMERA
  | ESP32_SENSOR
  | ESP32_CONTROLLER
  | ESP32_DISPLAY
  | RASPBERRY_PI
  | ARDUINO_IOT
  | CUSTOM_DEVICE
  deriving DecidableEq

/-- `enum class DeviceCapability` bit values from `device_types.h`. -/
def DeviceCapability.CAMERA : Nat := 1

def DeviceCapability.SENSORS : Nat := 2

def DeviceCapability.DISPLAY_SCREEN : Nat := 4

def DeviceCapability.ACTUATORS : Nat := 8

def DeviceCapability.STORAGE : Nat := 16

def DeviceCapability.NETWORKING : Nat := 32

def DeviceCapability.AUTHENTICATION : Nat := 64

def DeviceCapability.WEBSOCKET : Nat := 128

def DeviceCapability.FILE_UPLOAD : Nat := 256

def DeviceCapability.SYSTEM_CONTROL : Nat := 512

/-- `struct ApiEndpoint` (the `parameters` JSON document, never read by the
modelled code, is omitted). -/
structure ApiEndpoint where
  path : String
  method : String
  description : String
  requiresAuth : Bool
  deriving DecidableEq

/-- `struct IoTDevice` with the default values of its constructor
(the `metadata` JSON document, never touched by the modelled code, is
omitted). -/
structure IoTDevice where
  id : String := ""
  name : String := ""
  macAddress : String := ""
  ipAddress : String := ""
  hostname : String := ""
  type : DeviceType := .UNKNOWN
  capabilities : Nat := 0
  manufacturer : String := ""
  model : String := ""
  firmwareVersion : String := ""
  apiVersion : String := ""
  baseUrl : String := ""
  isOnline : Bool := false
  hasHttpServer : Bool := false
  lastSeen : Nat := 0
  discoveredAt : Nat := 0
  endpoints : List ApiEndpoint := []
  deriving DecidableEq

/-- `struct ClientInfo` from `wifi_manager.h` (rssi/connectionTime unused by
the discovery code are omitted). -/
structure ClientInfo where
  macAddress : String
  ipAddress : String
  hostname : String
  deriving DecidableEq

/-- ASCII lower-casing of a string, modelling Arduino `String::toLowerCase`. -/
def strToLower (s : String) : String := ⟨s.data.map Char.toLower⟩

/-- Removal of every occurrence of a character, modelling the source's
`id.replace(":", "")` (the pattern is the single character `:`). -/
def strRemoveChar (s : String) (c : Char) : String := ⟨s.data.filter (fun x => x ≠ c)⟩

/-- Arduino `String::equalsIgnoreCase`. -/
def equalsIgnoreCase (a b : String) : Bool := strToLower a == strToLower b

/-- `DeviceTypeUtils::createDeviceId`: strip colons, lower-case, prefix with
`iot_`. -/
def createDeviceId (macAddress : String) : String :=
  "iot_" ++ strToLower (strRemoveChar macAddress ':')

/-- `DeviceTypeUtils::deviceTypeToString`. -/
def deviceTypeToString : DeviceType → String
  | .ESP32_CAMERA => "ESP32 Camera"
  | .ESP32_SENSOR => "ESP32 Sensor"
  | .ESP32_CONTROLLER => "ESP32 Controller"
  | .ESP32_DISPLAY => "ESP32 Display"
  | .RASPBERRY_PI => "Raspberry Pi"
  | .ARDUINO_IOT => "Arduino IoT"
  | .CUSTOM_DEVICE => "Custom Device"
  | .UNKNOWN => "Unknown"

/-- `DeviceDriver::checkEndpoint`: GET `baseUrl + endpoint`; the endpoint
counts as present iff the status is 200, 401 or 403. -/
def checkEndpoint (o : Oracle) (baseUrl endpoint : String) : Bool :=
  let statusCode := o .get (baseUrl ++ endpoint)
  statusCode == 200 || statusCode == 401 || statusCode == 403

/-- `DeviceDriver::setDeviceProperties`: write type, capabilities, mark the
device online, and fill in the name (auto-generated when empty). -/
def setDeviceProperties (device : IoTDevice) (type : DeviceType)
    (capabilities : Nat) (name : String) : IoTDevice :=
  let d := { device with type := type, capabilities := capabilities, isOnline := true }
  if !name.isEmpty then
    { d with name := name }
  else
    { d with name := deviceTypeToString type ++ " (" ++ d.ipAddress ++ ")" }

/-- `ESP32CameraDriver::getCameraEndpoints`. -/
def getCameraEndpoints : List String :=
  ["/api/v1/camera/status", "/api/v1/camera/capture",
   "/api/v1/camera/settings", "/api/v1/camera/stream"]

/-- `ESP32MVCDriver::getMVCEndpoints`. -/
def getMVCEndpoints : List String :=
  ["/api/v1/auth/user", "/api/v1/system/stats",
   "/api/wifi/status", "/api/v1/iot/devices"]

/-- `GenericRESTDriver::getCommonEndpoints`. -/
def getCommonEndpoints : List String :=
  ["/", "/api", "/status", "/info", "/health",
   "/device", "/config", "/settings"]

/-- The shared probing loop of `ESP32CameraDriver::probe` and
`ESP32MVCDriver::probe`: check every candidate endpoint, appending each
present one to `device.endpoints` and counting it. -/
def probeEndpointsLoop (o : Oracle) (desc : String) :
    IoTDevice → List String → IoTDevice × Nat × List Call
  | device, [] => (device, 0, [])
  | device, endpoint :: rest =>
    let url := device.baseUrl ++ endpoint
    let (d1, hit) :=
      if checkEndpoint o device.baseUrl endpoint then
        ({ device with endpoints := device.endpoints ++ [⟨endpoint, "GET", desc, false⟩] }, 1)
      else
        (device, 0)
    let (d2, n, tr) := probeEndpointsLoop o desc d1 rest
    (d2, hit + n, ⟨.get, url⟩ :: tr)

/-- `ESP32CameraDriver::probe`. -/
def cameraProbe (o : Oracle) (device : IoTDevice) : IoTDevice × Bool × List Call :=
  let (d1, foundEndpoints, tr) :=
    probeEndpointsLoop o "Camera API endpoint" device getCameraEndpoints
  if foundEndpoints ≥ 2 then
    let capabilities := DeviceCapability.CAMERA ||| DeviceCapability.NETWORKING
    let capabilities :=
      if checkEndpoint o d1.baseUrl "/ws" then
        capabilities ||| DeviceCapability.WEBSOCKET
      else capabilities
    (setDeviceProperties d1 .ESP32_CAMERA capabilities "ESP32 Camera", true,
      tr ++ [⟨.get, d1.baseUrl ++ "/ws"⟩])
  else
    (d1, false, tr)

/-- `ESP32MVCDriver::probe`. -/
def mvcProbe (o : Oracle) (device : IoTDevice) : IoTDevice × Bool × List Call :=
  let (d1, foundEndpoints, tr) :=
    probeEndpointsLoop o "MVC API endpoint" device getMVCEndpoints
  if foundEndpoints ≥ 2 then
    let capabilities := DeviceCapability.NETWORKING ||| DeviceCapability.SYSTEM_CONTROL |||
      DeviceCapability.AUTHENTICATION
    let capabilities :=
      if checkEndpoint o d1.baseUrl "/ws" then
        capabilities ||| DeviceCapability.WEBSOCKET
      else capabilities
    let d2 :=
      if checkEndpoint o d1.baseUrl "/api/v1/iot/devices" then
        { d1 with endpoints := d1.endpoints ++
            [⟨"/api/v1/iot/devices", "GET", "IoT device management", false⟩] }
      else d1
    (setDeviceProperties d2 .ESP32_CONTROLLER capabilities "ESP32 Controller", true,
      tr ++ [⟨.get, d1.baseUrl ++ "/ws"⟩, ⟨.get, d1.baseUrl ++ "/api/v1/iot/devices"⟩])
  else
    (d1, false, tr)

/-- The endpoint loop of `GenericRESTDriver::probe`: like the shared loop but
with the source's `break` once two endpoints have been found. -/
def genericEndpointLoop (o : Oracle) :
    IoTDevice → Nat → List String → IoTDevice × Nat × List Call
  | device, foundEndpoints, [] => (device, foundEndpoints, [])
  | device, foundEndpoints, endpoint :: rest =>
    let url := device.baseUrl ++ endpoint
    if checkEndpoint o device.baseUrl endpoint then
      let n1 := foundEndpoints + 1
      let d1 := { device with endpoints := device.endpoints ++ [⟨endpoint, "GET", "Generic endpoint", false⟩] }
      if n1 ≥ 2 then
        (d1, n1, [⟨.get, url⟩])
      else
        let (d2, n2, tr) := genericEndpointLoop o d1 n1 rest
        (d2, n2, ⟨.get, url⟩ :: tr)
    else
      let (d2, n2, tr) := genericEndpointLoop o device foundEndpoints rest
      (d2, n2, ⟨.get, url⟩ :: tr)

/-- Short-circuit disjunction of two `checkEndpoint` calls, as produced by the
source's `||` (the second endpoint is only requested when the first misses). -/
def checkEither (o : Oracle) (baseUrl e1 e2 : String) : Bool × List Call :=
  if checkEndpoint o baseUrl e1 then
    (true, [⟨.get, baseUrl ++ e1⟩])
  else
    (checkEndpoint o baseUrl e2, [⟨.get, baseUrl ++ e1⟩, ⟨.get, baseUrl ++ e2⟩])

/-- Short-circuit disjunction of three `checkEndpoint` calls. -/
def checkAnyOf3 (o : Oracle) (baseUrl e1 e2 e3 : String) : Bool × List Call :=
  if checkEndpoint o baseUrl e1 then
    (true, [⟨.get, baseUrl ++ e1⟩])
  else if checkEndpoint o baseUrl e2 then
    (true, [⟨.get, baseUrl ++ e1⟩, ⟨.get, baseUrl ++ e2⟩])
  else
    (checkEndpoint o baseUrl e3,
      [⟨.get, baseUrl ++ e1⟩, ⟨.get, baseUrl ++ e2⟩, ⟨.get, baseUrl ++ e3⟩])

/-- `GenericRESTDriver::detectCapabilities`: accumulate detected capability
bits into a local bitmask and store it in `device.capabilities`. -/
def detectCapabilities (o : Oracle) (device : IoTDevice) : IoTDevice × List Call :=
  let capabilities := DeviceCapability.NETWORKING
  let (ws, t1) := checkEither o device.baseUrl "/ws" "/websocket"
  let capabilities := if ws then capabilities ||| DeviceCapability.WEBSOCKET else capabilities
  let (up, t2) := checkEither o device.baseUrl "/upload" "/api/upload"
  let capabilities := if up then capabilities ||| DeviceCapability.FILE_UPLOAD else capabilities
  let (au, t3) := checkAnyOf3 o device.baseUrl "/login" "/auth" "/api/auth"
  let capabilities := if au then capabilities ||| DeviceCapability.AUTHENTICATION else capabilities
  let (se, t4) := checkAnyOf3 o device.baseUrl "/sensors" "/api/sensors" "/api/v1/sensors"
  let capabilities := if se then capabilities ||| DeviceCapability.SENSORS else capabilities
  ({ device with capabilities := capabilities }, t1 ++ t2 ++ t3 ++ t4)

/-- `GenericRESTDriver::probe`.  Note the source passes the *local*
`capabilities` variable (NETWORKING only) to `setDeviceProperties`, which
overwrites whatever `detectCapabilities` just stored in the device. -/
def genericProbe (o : Oracle) (device : IoTDevice) : IoTDevice × Bool × List Call :=
  let (d1, foundEndpoints, tr) := genericEndpointLoop o device 0 getCommonEndpoints
  if foundEndpoints ≥ 1 then
    let capabilities := DeviceCapability.NETWORKING
    let (d2, tr2) := detectCapabilities o d1
    (setDeviceProperties d2 .CUSTOM_DEVICE capabilities "Generic IoT Device", true,
      tr ++ tr2)
  else
    (d1, false, tr)

/-- Parameters of a device command (`JsonDocument parameters`): the only key
the modelled drivers read is `quality` (ESP32CameraDriver's `capture`). -/
structure CmdParams where
  quality : Option String := none
  deriving DecidableEq

/-- `ESP32CameraDriver::executeCommand`. -/
def cameraExecuteCommand (o : Oracle) (device : IoTDevice) (command : String)
    (params : CmdParams) : Bool × List Call :=
  if command == "capture" then
    let url := device.baseUrl ++ "/api/v1/camera/capture"
    let url :=
      match params.quality with
      | some q => url ++ "?quality=" ++ q
      | none => url
    let s := o .post url
    (decide (200 ≤ s ∧ s < 300), [⟨.post, url⟩])
  else if command == "start_stream" then
    let url := device.baseUrl ++ "/api/v1/camera/stream"
    let s := o .post url
    (decide (200 ≤ s ∧ s < 300), [⟨.post, url⟩])
  else if command == "stop_stream" then
    let url := device.baseUrl ++ "/api/v1/camera/stream"
    let s := o .del url
    (decide (200 ≤ s ∧ s < 300), [⟨.del, url⟩])
  else
    (false, [])

/-- `ESP32MVCDriver::executeCommand`. -/
def mvcExecuteCommand (o : Oracle) (device : IoTDevice) (command : String)
    (_params : CmdParams) : Bool × List Call :=
  if command == "system_restart" then
    let url := device.baseUrl ++ "/api/v1/system/restart"
    let s := o .post url
    (decide (200 ≤ s ∧ s < 300), [⟨.post, url⟩])
  else if command == "get_wifi_status" then
    let url := device.baseUrl ++ "/api/wifi/status"
    let s := o .get url
    (decide (200 ≤ s ∧ s < 300), [⟨.get, url⟩])
  else if command == "get_iot_devices" then
    let url := device.baseUrl ++ "/api/v1/iot/devices"
    let s := o .get url
    (decide (200 ≤ s ∧ s < 300), [⟨.get, url⟩])
  else
    (false, [])

/-- The loop shared by `GenericRESTDriver::executeCommand`'s two commands:
GET each endpoint until one answers 2xx. -/
def tryGetEndpoints (o : Oracle) (baseUrl : String) : List String → Bool × List Call
  | [] => (false, [])
  | endpoint :: rest =>
    let url := baseUrl ++ endpoint
    let s := o .get url
    if decide (200 ≤ s ∧ s < 300) then
      (true, [⟨.get, url⟩])
    else
      let (b, tr) := tryGetEndpoints o baseUrl rest
      (b, ⟨.get, url⟩ :: tr)

/-- `GenericRESTDriver::executeCommand`. -/
def genericExecuteCommand (o : Oracle) (device : IoTDevice) (command : String)
    (_params : CmdParams) : Bool × List Call :=
  if command == "get_status" then
    tryGetEndpoints o device.baseUrl ["/status", "/api/status", "/health"]
  else if command == "get_info" then
    tryGetEndpoints o device.baseUrl ["/info", "/api/info", "/device"]
  else
    (false, [])

/-- The three built-in drivers, in the registration order of
`IoTDeviceManager::begin`. -/
inductive BuiltinDriver where
  | camera
  | mvc
  | generic
  deriving DecidableEq

/-- Virtual `DeviceDriver::getDeviceType` dispatch. -/
def BuiltinDriver.getDeviceType : BuiltinDriver → DeviceType
  | .camera => .ESP32_CAMERA
  | .mvc => .ESP32_CONTROLLER
  | .generic => .CUSTOM_DEVICE

/-- Virtual `DeviceDriver::canHandle` dispatch (bodies from the three driver
headers). -/
def BuiltinDriver.canHandle : BuiltinDriver → IoTDevice → Bool
  | .camera, device => device.type == .ESP32_CAMERA
  | .mvc, device => device.type == .ESP32_CONTROLLER
  | .generic, device => device.type == .CUSTOM_DEVICE || device.type == .UNKNOWN

/-- Virtual `DeviceDriver::probe` dispatch. -/
def BuiltinDriver.probe : BuiltinDriver → Oracle → IoTDevice → IoTDevice × Bool × List Call
  | .camera, o, device => cameraProbe o device
  | .mvc, o, device => mvcProbe o device
  | .generic, o, device => genericProbe o device

/-- Virtual `DeviceDriver::executeCommand` dispatch. -/
def BuiltinDriver.executeCommand :
    BuiltinDriver → Oracle → IoTDevice → String → CmdParams → Bool × List Call
  | .camera, o, device, command, params => cameraExecuteCommand o device command params
  | .mvc, o, device, command, params => mvcExecuteCommand o device command params
  | .generic, o, device, command, params => genericExecuteCommand o device command params

/-- The driver registry built by `IoTDeviceManager::begin` (registration
order: camera, MVC, generic REST). -/
def builtinDrivers : List BuiltinDriver := [.camera, .mvc, .generic]

/-- `DeviceDiscovery::probeDevice`: try the registered drivers in order,
stopping at the first whose probe succeeds; the device record (with whatever
endpoints a failing probe appended) is threaded through, exactly as the C++
passes the same `IoTDevice&` to each driver. -/
def probeDevice (o : Oracle) : List BuiltinDriver → IoTDevice → IoTDevice × Bool × List Call
  | [], device => (device, false, [])
  | driver :: rest, device =>
    let (d1, ok, tr) := driver.probe o device
    if ok then
      (d1, true, tr)
    else
      let (d2, ok2, tr2) := probeDevice o rest d1
      (d2, ok2, tr ++ tr2)

/-- `DeviceDiscovery::findDriverForDevice`: first registered driver whose
`canHandle` accepts the device. -/
def findDriverForDevice (drivers : List BuiltinDriver) (device : IoTDevice) :
    Option BuiltinDriver :=
  drivers.find? (fun driver => driver.canHandle device)

/-- `IoTDeviceManager::getDevice`: first catalog entry with the given id. -/
def getDevice (devices : List IoTDevice) (deviceId : String) : Option IoTDevice :=
  devices.find? (fun device => device.id == deviceId)

/-- Outcome of `IoTDeviceManager::executeDeviceCommand`, mirroring the JSON
response it builds: one error string or `success = true`. -/
inductive CmdResult where
  | notFound
  | offline
  | noDriver
  | commandFailed
  | success
  deriving DecidableEq

/-- `IoTDeviceManager::executeDeviceCommand`: NotFound / Offline / NoDriver
cascade, then delegation to the driver found by `findDriverForDevice`. -/
def executeDeviceCommand (drivers : List BuiltinDriver) (devices : List IoTDevice)
    (deviceId command : String) (params : CmdParams) (o : Oracle) :
    CmdResult × List Call :=
  match getDevice devices deviceId with
  | none => (.notFound, [])
  | some device =>
    if !device.isOnline then
      (.offline, [])
    else
      match findDriverForDevice drivers device with
      | none => (.noDriver, [])
      | some driver =>
        let (ok, tr) := driver.executeCommand o device command params
        (if ok then .success else .commandFailed, tr)

/-- Callback invocations made by the Discovery Engine:
`_deviceDiscoveredCallback(device)` and
`_deviceStatusCallback(device, isOnline)`. -/
inductive Event where
  | discovered (device : IoTDevice)
  | statusChanged (device : IoTDevice) (isOnline : Bool)
  deriving DecidableEq

/-- The mutable fields of `DeviceDiscovery` (the driver registry is passed
separately; callbacks are modelled as the emitted `Event` list). -/
structure DiscoveryState where
  devices : List IoTDevice := []
  discoveryEnabled : Bool := false
  lastDiscoveryScan : Nat := 0
  discoveryInterval : Nat := 30000
  totalScans : Nat := 0
  devicesDiscovered : Nat := 0
  lastScanDuration : Nat := 0
  deriving DecidableEq

/-- `DeviceDiscovery::checkHttpServer`: GET the root path; any real status
code (positive) means an HTTP server is present. -/
def checkHttpServer (o : Oracle) (ipAddress : String) : Bool :=
  let testUrl := "http://" ++ ipAddress ++ "/"
  decide (0 < o .get testUrl)

/-- `DeviceDiscovery::updateDeviceStatus`: flip `isOnline`, stamp `lastSeen`
and fire the status callback, but only when the flag actually changes. -/
def updateDeviceStatus (device : IoTDevice) (isOnline : Bool) (now : Nat) :
    IoTDevice × List Event :=
  if device.isOnline ≠ isOnline then
    let d := { device with isOnline := isOnline, lastSeen := now }
    (d, [.statusChanged d isOnline])
  else
    (device, [])

/-- The fresh `IoTDevice` record built for a newly seen client
(`scanForDevices`, new-device branch, before the HTTP-server check). -/
def newDeviceFor (client : ClientInfo) (now : Nat) : IoTDevice :=
  { id := createDeviceId client.macAddress
    macAddress := client.macAddress
    ipAddress := client.ipAddress
    hostname := client.hostname
    discoveredAt := now
    lastSeen := now
    baseUrl := "http://" ++ client.ipAddress }

/-- Update of the first list element satisfying `p` (the C++ takes a pointer
to the first match and mutates it in place); also returns the events the
update emitted. -/
def updateFirstWith (p : IoTDevice → Bool) (f : IoTDevice → IoTDevice × List Event) :
    List IoTDevice → List IoTDevice × List Event
  | [] => ([], [])
  | d :: rest =>
    if p d then
      let (d', evs) := f d
      (d' :: rest, evs)
    else
      let (rest', evs) := updateFirstWith p f rest
      (d :: rest', evs)

/-- The update applied to an already-catalogued device when its client record
shows up again in the enumerator output (`scanForDevices`, else-branch). -/
def refreshExistingDevice (o : Oracle) (client : ClientInfo) (now : Nat)
    (device : IoTDevice) : IoTDevice × List Event :=
  let wasOnline := device.isOnline
  let d := { device with
    ipAddress := client.ipAddress, hostname := client.hostname, lastSeen := now }
  if d.hasHttpServer then
    let isOnline := checkHttpServer o d.ipAddress
    if isOnline ≠ wasOnline then
      updateDeviceStatus d isOnline now
    else
      (d, [])
  else
    (d, [])

/-- Accumulator of the per-client loop of `scanForDevices`: the catalog, the
local `newDevices` counter, the `_devicesDiscovered` increment, and the events
fired so far. -/
structure ScanAcc where
  devices : List IoTDevice
  newDevices : Nat
  discovered : Nat
  events : List Event
  deriving DecidableEq

/-- The fresh device record with its `hasHttpServer` flag filled in by
`checkHttpServer` (lines 93-106 of `scanForDevices`). -/
def enrolledDevice (o : Oracle) (client : ClientInfo) (now : Nat) : IoTDevice :=
  { newDeviceFor client now with hasHttpServer := checkHttpServer o client.ipAddress }

/-- One iteration of the per-client loop of `scanForDevices`. -/
def processClient (drivers : List BuiltinDriver) (o : Oracle) (now : Nat)
    (acc : ScanAcc) (client : ClientInfo) : ScanAcc :=
  if client.ipAddress == "0.0.0.0" then
    acc
  else
    let deviceId := createDeviceId client.macAddress
    match acc.devices.find? (fun device => device.id == deviceId) with
    | none =>
      let newDevice := enrolledDevice o client now
      if newDevice.hasHttpServer then
        let (probed, ok, _) := probeDevice o drivers newDevice
        if ok then
          let probed := { probed with isOnline := true }
          { devices := acc.devices ++ [probed]
            newDevices := acc.newDevices + 1
            discovered := acc.discovered + 1
            events := acc.events ++ [.discovered probed] }
        else
          acc
      else
        acc
    | some _ =>
      let (devices', evs) :=
        updateFirstWith (fun device => device.id == deviceId)
          (refreshExistingDevice o client now) acc.devices
      { acc with devices := devices', events := acc.events ++ evs }

/-- The per-client loop of `scanForDevices`. -/
def processClients (drivers : List BuiltinDriver) (o : Oracle) (now : Nat) :
    ScanAcc → List ClientInfo → ScanAcc
  | acc, [] => acc
  | acc, client :: rest =>
    processClients drivers o now (processClient drivers o now acc client) rest

/-- The closing loop of `scanForDevices`: a catalogued device whose MAC no
longer appears in the client list is marked offline. -/
def markMissingOffline (clients : List ClientInfo) (now : Nat) :
    List IoTDevice → List IoTDevice × List Event
  | [] => ([], [])
  | device :: rest =>
    let found := clients.any (fun client => equalsIgnoreCase device.macAddress client.macAddress)
    let (d', evs) :=
      if !found && device.isOnline then
        updateDeviceStatus device false now
      else
        (device, [])
    let (rest', evs2) := markMissingOffline clients now rest
    (d' :: rest', evs ++ evs2)

/-- What one call of `DeviceDiscovery::scanForDevices` produces: the updated
engine state, the returned count of new devices, and the callback events in
firing order. -/
structure ScanResult where
  st : DiscoveryState
  newDevices : Nat
  events : List Event
  deriving DecidableEq

/-- `DeviceDiscovery::scanForDevices`.  The clock is a single instant `now`,
so the scan duration `millis() - scanStart` is `0` here. -/
def scanForDevices (drivers : List BuiltinDriver) (clients : List ClientInfo)
    (o : Oracle) (now : Nat) (st : DiscoveryState) : ScanResult :=
  let acc := processClients drivers o now
    { devices := st.devices, newDevices := 0, discovered := 0, events := [] } clients
  let (devices2, evs2) := markMissingOffline clients now acc.devices
  { st := { st with
      devices := devices2,
      totalScans := st.totalScans + 1,
      devicesDiscovered := st.devicesDiscovered + acc.discovered,
      lastScanDuration := 0 },
    newDevices := acc.newDevices,
    events := acc.events ++ evs2 }

/-- `DeviceDiscovery::startManualScan`: reset the time-of-last-scan marker. -/
def startManualScan (st : DiscoveryState) : DiscoveryState :=
  { st with lastDiscoveryScan := 0 }

/-- One iteration of `DeviceDiscovery::discoveryTask`'s loop body: scan when
at least `_discoveryInterval` ms have passed since `_lastDiscoveryScan`
(unsigned `now - last`, modelled on `Nat` for a monotone clock). -/
def discoveryIter (drivers : List BuiltinDriver) (clients : List ClientInfo)
    (o : Oracle) (now : Nat) (st : DiscoveryState) : DiscoveryState × List Event :=
  if now - st.lastDiscoveryScan ≥ st.discoveryInterval then
    let r := scanForDevices drivers clients o now st
    ({ r.st with lastDiscoveryScan := now }, r.events)
  else
    (st, [])

/-- `DeviceDiscovery::startDiscovery` (the FreeRTOS task creation itself is
outside the model; the flag and interval updates are kept). -/
def startDiscovery (st : DiscoveryState) (scanIntervalMs : Nat) : DiscoveryState :=
  if st.discoveryEnabled then
    st
  else
    { st with discoveryInterval := scanIntervalMs, discoveryEnabled := true }

/-- `DeviceDiscovery::stopDiscovery`. -/
def stopDiscovery (st : DiscoveryState) : DiscoveryState :=
  if !st.discoveryEnabled then
    st
  else
    { st with discoveryEnabled := false }

/-- `IoTDeviceManager::refreshDevice`: re-probe one known device in place;
fails when the device is unknown, has no HTTP server recorded, or no driver's
`canHandle` accepts it. -/
def refreshDevice (drivers : List BuiltinDriver) (devices : List IoTDevice)
    (deviceId : String) (o : Oracle) : List IoTDevice × Bool :=
  match getDevice devices deviceId with
  | none => (devices, false)
  | some device =>
    if !device.hasHttpServer then
      (devices, false)
    else
      match findDriverForDevice drivers device with
      | none => (devices, false)
      | some driver =>
        let (probed, ok, _) := driver.probe o device
        let (devices', _) :=
          updateFirstWith (fun d => d.id == deviceId) (fun _ => (probed, [])) devices
        (devices', ok)

/-- Harness for liveness histories: apply a sequence of
`(recheck result, timestamp)` pairs through `updateDeviceStatus`, the only
liveness mutator of the Discovery Engine, collecting the fired events. -/
def applyStatusSeq (device : IoTDevice) : List (Bool × Nat) → IoTDevice × List Event
  | [] => (device, [])
  | (b, t) :: rest =>
    let (d1, evs) := updateDeviceStatus device b t
    let (d2, evs2) := applyStatusSeq d1 rest
    (d2, evs ++ evs2)

/-- Spec-side count of actual flag transitions in a recheck history, starting
from the current flag value. -/
def countTransitions (cur : Bool) : List Bool → Nat
  | [] => 0
  | b :: rest => (if cur ≠ b then 1 else 0) + countTransitions b rest

/-- Is this event a device-discovered callback invocation? -/
def isDiscovered : Event → Bool
  | .discovered _ => true
  | .statusChanged _ _ => false

/-- Concrete enumerator entry used by the scenario theorems: one client with
a nonzero network address. -/
def clientA : ClientInfo :=
  { macAddress := "AA:BB:CC:DD:EE:01", ipAddress := "192.168.4.50", hostname := "cam" }

/-- Transport oracle of Scenario A exactly as the spec words it: status 200
for the two camera endpoints, transport failure (0) for every other
request — including the root path used by the HTTP-server presence check. -/
def camOnlyOracle : Oracle := fun v url =>
  match v with
  | .get =>
    if url == "http://192.168.4.50/api/v1/camera/status" then 200
    else if url == "http://192.168.4.50/api/v1/camera/capture" then 200
    else 0
  | _ => 0

/-- Scenario A oracle amended so that the root path answers a real status
(404), letting the presence check pass; everything but the two camera
endpoints still fails. -/
def camRootOracle : Oracle := fun v url =>
  match v with
  | .get =>
    if url == "http://192.168.4.50/" then 404
    else if url == "http://192.168.4.50/api/v1/camera/status" then 200
    else if url == "http://192.168.4.50/api/v1/camera/capture" then 200
    else 0
  | _ => 0

/-- Oracle for a client with an HTTP server (root answers 404) whose every
probe endpoint fails: every driver's probe fails. -/
def rootOnlyOracle : Oracle := fun v url =>
  match v with
  | .get => if url == "http://192.168.4.50/" then 404 else 0
  | _ => 0

/-- Device already carrying its discovery-time fields, as handed to the
drivers by `probeDevice`. -/
def wsDevice : IoTDevice :=
  { id := "iot_aabbccddee02", macAddress := "AA:BB:CC:DD:EE:02",
    ipAddress := "192.168.4.60", baseUrl := "http://192.168.4.60",
    hasHttpServer := true }

/-- Oracle whose surface answers 200 on the root path and on `/ws` only:
the generic driver finds one common endpoint and detects the WebSocket
capability. -/
def wsRootOracle : Oracle := fun v url =>
  match v with
  | .get =>
    if url == "http://192.168.4.60/" then 200
    else if url == "http://192.168.4.60/ws" then 200
    else 0
  | _ => 0

/-- Oracle answering 200 to everything: both the camera driver and the
generic driver claim any device under it. -/
def allOkOracle : Oracle := fun _ _ => 200

/-- Oracle whose every request is a transport failure. -/
def zeroOracle : Oracle := fun _ _ => 0

/-- A discovery state mid-run: periodic loop configured with the default
30000 ms interval, last scan at uptime 500 ms. -/
def manualScanState : DiscoveryState :=
  { lastDiscoveryScan := 500, discoveryInterval := 30000 }

/-- The catalog entry produced by scanning `clientA` under `camRootOracle`
at uptime 5000 ms. -/
def scenarioDevice : IoTDevice :=
  { id := "iot_aabbccddee01", name := "ESP32 Camera",
    macAddress := "AA:BB:CC:DD:EE:01", ipAddress := "192.168.4.50",
    hostname := "cam", type := .ESP32_CAMERA, capabilities := 33,
    baseUrl := "http://192.168.4.50", isOnline := true, hasHttpServer := true,
    lastSeen := 5000, discoveredAt := 5000,
    endpoints := [⟨"/api/v1/camera/status", "GET", "Camera API endpoint", false⟩,
                  ⟨"/api/v1/camera/capture", "GET", "Camera API endpoint", false⟩] }

/-! Helper lemmas about the driver layer. -/

theorem setDeviceProperties_fields (device : IoTDevice) (type : DeviceType)
    (capabilities : Nat) (name : String) :
    (setDeviceProperties device type capabilities name).type = type ∧
    (setDeviceProperties device type capabilities name).capabilities = capabilities ∧
    (setDeviceProperties device type capabilities name).isOnline = true ∧
    (setDeviceProperties device type capabilities name).id = device.id ∧
    (setDeviceProperties device type capabilities name).hasHttpServer = device.hasHttpServer := by
  by_cases h : name.isEmpty <;> simp [setDeviceProperties, h]

theorem probeEndpointsLoop_frame (o : Oracle) (desc : String) (eps : List String)
    (device : IoTDevice) :
    (probeEndpointsLoop o desc device eps).1.id = device.id ∧
    (probeEndpointsLoop o desc device eps).1.hasHttpServer = device.hasHttpServer ∧
    (probeEndpointsLoop o desc device eps).1.baseUrl = device.baseUrl := by
  induction eps generalizing device with
  | nil => simp [probeEndpointsLoop]
  | cons ep rest ih =>
    simp only [probeEndpointsLoop]
    by_cases h : checkEndpoint o device.baseUrl ep
    · simp only [if_pos h]
      rcases hrec : probeEndpointsLoop o desc
        { device with endpoints := device.endpoints ++ [⟨ep, "GET", desc, false⟩] } rest
        with ⟨d2, n, tr⟩
      have h2 := ih { device with endpoints := device.endpoints ++ [⟨ep, "GET", desc, false⟩] }
      rw [hrec] at h2
      simpa using h2
    · simp only [if_neg h]
      rcases hrec : probeEndpointsLoop o desc device rest with ⟨d2, n, tr⟩
      have h2 := ih device
      rw [hrec] at h2
      simpa using h2

theorem genericEndpointLoop_frame (o : Oracle) (eps : List String)
    (device : IoTDevice) (found : Nat) :
    (genericEndpointLoop o device found eps).1.id = device.id ∧
    (genericEndpointLoop o device found eps).1.hasHttpServer = device.hasHttpServer ∧
    (genericEndpointLoop o device found eps).1.baseUrl = device.baseUrl := by
  induction eps generalizing device found with
  | nil => simp [genericEndpointLoop]
  | cons ep rest ih =>
    simp only [genericEndpointLoop]
    by_cases h : checkEndpoint o device.baseUrl ep
    · simp only [if_pos h]
      by_cases h2 : found + 1 ≥ 2
      · simp only [if_pos h2]
        simp
      · simp only [if_neg h2]
        rcases hrec : genericEndpointLoop o
          { device with endpoints := device.endpoints ++ [⟨ep, "GET", "Generic endpoint", false⟩] }
          (found + 1) rest with ⟨d2, n, tr⟩
        have h3 := ih { device with endpoints := device.endpoints ++ [⟨ep, "GET", "Generic endpoint", false⟩] } (found + 1)
        rw [hrec] at h3
        simpa using h3
    · simp only [if_neg h]
      rcases hrec : genericEndpointLoop o device found rest with ⟨d2, n, tr⟩
      have h3 := ih device found
      rw [hrec] at h3
      simpa using h3

theorem detectCapabilities_frame (o : Oracle) (device : IoTDevice) :
    (detectCapabilities o device).1.id = device.id ∧
    (detectCapabilities o device).1.hasHttpServer = device.hasHttpServer ∧
    (detectCapabilities o device).1.type = device.type ∧
    (detectCapabilities o device).1.isOnline = device.isOnline := by
  simp only [detectCapabilities]
  rcases h1 : checkEither o device.baseUrl "/ws" "/websocket" with ⟨ws, t1⟩
  rcases h2 : checkEither o device.baseUrl "/upload" "/api/upload" with ⟨up, t2⟩
  rcases h3 : checkAnyOf3 o device.baseUrl "/login" "/auth" "/api/auth" with ⟨au, t3⟩
  rcases h4 : checkAnyOf3 o device.baseUrl "/sensors" "/api/sensors" "/api/v1/sensors" with ⟨se, t4⟩
  simp

theorem cameraProbe_frame (o : Oracle) (device : IoTDevice) :
    (cameraProbe o device).1.id = device.id ∧
    (cameraProbe o device).1.hasHttpServer = device.hasHttpServer := by
  simp only [cameraProbe]
  rcases hl : probeEndpointsLoop o "Camera API endpoint" device getCameraEndpoints
    with ⟨d1, n, tr⟩
  have hf := probeEndpointsLoop_frame o "Camera API endpoint" getCameraEndpoints device
  rw [hl] at hf
  by_cases h2 : n ≥ 2
  · have hs := setDeviceProperties_fields d1 .ESP32_CAMERA
      (if checkEndpoint o d1.baseUrl "/ws" then
        DeviceCapability.CAMERA ||| DeviceCapability.NETWORKING ||| DeviceCapability.WEBSOCKET
      else DeviceCapability.CAMERA ||| DeviceCapability.NETWORKING) "ESP32 Camera"
    simp only [if_pos h2]
    by_cases hws : checkEndpoint o d1.baseUrl "/ws" <;>
      simp_all
  · simp only [if_neg h2]
    simpa using ⟨hf.1, hf.2.1⟩

theorem mvcProbe_frame (o : Oracle) (device : IoTDevice) :
    (mvcProbe o device).1.id = device.id ∧
    (mvcProbe o device).1.hasHttpServer = device.hasHttpServer := by
  simp only [mvcProbe]
  rcases hl : probeEndpointsLoop o "MVC API endpoint" device getMVCEndpoints
    with ⟨d1, n, tr⟩
  have hf := probeEndpointsLoop_frame o "MVC API endpoint" getMVCEndpoints device
  rw [hl] at hf
  by_cases h2 : n ≥ 2
  · simp only [if_pos h2]
    by_cases hws : checkEndpoint o d1.baseUrl "/ws" <;>
      by_cases hiot : checkEndpoint o d1.baseUrl "/api/v1/iot/devices" <;>
      simp_all [setDeviceProperties_fields]
  · simp only [if_neg h2]
    simpa using ⟨hf.1, hf.2.1⟩

theorem genericProbe_frame (o : Oracle) (device : IoTDevice) :
    (genericProbe o device).1.id = device.id ∧
    (genericProbe o device).1.hasHttpServer = device.hasHttpServer := by
  simp only [genericProbe]
  rcases hl : genericEndpointLoop o device 0 getCommonEndpoints with ⟨d1, n, tr⟩
  have hf := genericEndpointLoop_frame o getCommonEndpoints device 0
  rw [hl] at hf
  by_cases h2 : n ≥ 1
  · simp only [if_pos h2]
    rcases hd : detectCapabilities o d1 with ⟨d2, tr2⟩
    have hdf := detectCapabilities_frame o d1
    rw [hd] at hdf
    have hs := setDeviceProperties_fields d2 .CUSTOM_DEVICE DeviceCapability.NETWORKING
      "Generic IoT Device"
    simp_all
  · simp only [if_neg h2]
    simpa using ⟨hf.1, hf.2.1⟩

theorem cameraProbe_success (o : Oracle) (device : IoTDevice)
    (h : (cameraProbe o device).2.1 = true) :
    (cameraProbe o device).1.type = .ESP32_CAMERA ∧
    (cameraProbe o device).1.isOnline = true ∧
    (cameraProbe o device).1.capabilities &&& DeviceCapability.NETWORKING =
      DeviceCapability.NETWORKING := by
  rcases hl : probeEndpointsLoop o "Camera API endpoint" device getCameraEndpoints
    with ⟨d1, n, tr⟩
  simp only [cameraProbe, hl] at h ⊢
  by_cases h2 : n ≥ 2
  · simp only [if_pos h2] at h ⊢
    by_cases hws : checkEndpoint o d1.baseUrl "/ws" <;>
      simp [hws, setDeviceProperties_fields] <;> decide
  · simp [if_neg h2] at h

theorem mvcProbe_success (o : Oracle) (device : IoTDevice)
    (h : (mvcProbe o device).2.1 = true) :
    (mvcProbe o device).1.type = .ESP32_CONTROLLER ∧
    (mvcProbe o device).1.isOnline = true ∧
    (mvcProbe o device).1.capabilities &&& DeviceCapability.NETWORKING =
      DeviceCapability.NETWORKING := by
  rcases hl : probeEndpointsLoop o "MVC API endpoint" device getMVCEndpoints
    with ⟨d1, n, tr⟩
  simp only [mvcProbe, hl] at h ⊢
  by_cases h2 : n ≥ 2
  · simp only [if_pos h2] at h ⊢
    by_cases hws : checkEndpoint o d1.baseUrl "/ws" <;>
      by_cases hiot : checkEndpoint o d1.baseUrl "/api/v1/iot/devices" <;>
      simp [hws, hiot, setDeviceProperties_fields] <;> decide
  · simp [if_neg h2] at h

theorem genericProbe_success (o : Oracle) (device : IoTDevice)
    (h : (genericProbe o device).2.1 = true) :
    (genericProbe o device).1.type = .CUSTOM_DEVICE ∧
    (genericProbe o device).1.isOnline = true ∧
    (genericProbe o device).1.capabilities = DeviceCapability.NETWORKING := by
  rcases hl : genericEndpointLoop o device 0 getCommonEndpoints with ⟨d1, n, tr⟩
  simp only [genericProbe, hl] at h ⊢
  by_cases h2 : n ≥ 1
  · simp only [if_pos h2] at h ⊢
    rcases hd : detectCapabilities o d1 with ⟨d2, tr2⟩
    simp [setDeviceProperties_fields]
  · simp [if_neg h2] at h

theorem driverProbe_frame (driver : BuiltinDriver) (o : Oracle) (device : IoTDevice) :
    ((driver.probe o device).1).id = device.id ∧
    ((driver.probe o device).1).hasHttpServer = device.hasHttpServer := by
  cases driver with
  | camera => exact cameraProbe_frame o device
  | mvc => exact mvcProbe_frame o device
  | generic => exact genericProbe_frame o device

theorem driverProbe_success (driver : BuiltinDriver) (o : Oracle) (device : IoTDevice)
    (h : (driver.probe o device).2.1 = true) :
    ((driver.probe o device).1).type ≠ .UNKNOWN ∧
    ((driver.probe o device).1).isOnline = true ∧
    ((driver.probe o device).1).capabilities &&& DeviceCapability.NETWORKING =
      DeviceCapability.NETWORKING := by
  cases driver with
  | camera =>
    have h3 := cameraProbe_success o device h
    refine ⟨?_, h3.2.1, h3.2.2⟩
    rw [show (BuiltinDriver.camera.probe o device) = cameraProbe o device from rfl, h3.1]
    simp
  | mvc =>
    have h3 := mvcProbe_success o device h
    refine ⟨?_, h3.2.1, h3.2.2⟩
    rw [show (BuiltinDriver.mvc.probe o device) = mvcProbe o device from rfl, h3.1]
    simp
  | generic =>
    have h3 := genericProbe_success o device h
    refine ⟨?_, h3.2.1, ?_⟩
    · rw [show (BuiltinDriver.generic.probe o device) = genericProbe o device from rfl, h3.1]
      simp
    · rw [show (BuiltinDriver.generic.probe o device) = genericProbe o device from rfl, h3.2.2]
      decide

theorem probeDevice_frame (o : Oracle) (drivers : List BuiltinDriver) (device : IoTDevice) :
    ((probeDevice o drivers device).1).id = device.id ∧
    ((probeDevice o drivers device).1).hasHttpServer = device.hasHttpServer := by
  induction drivers generalizing device with
  | nil => simp [probeDevice]
  | cons driver rest ih =>
    simp only [probeDevice]
    rcases hp : driver.probe o device with ⟨d1, ok, tr⟩
    have hf := driverProbe_frame driver o device
    rw [hp] at hf
    by_cases hok : ok = true
    · simp [hok]
      exact ⟨hf.1, hf.2⟩
    · simp only [hok]
      rcases hrec : probeDevice o rest d1 with ⟨d2, ok2, tr2⟩
      have h2 := ih d1
      rw [hrec] at h2
      simp [Bool.not_eq_true] at hok
      simp [hok]
      simp at h2
      exact ⟨h2.1.trans hf.1, h2.2.trans hf.2⟩

theorem probeDevice_success (o : Oracle) (drivers : List BuiltinDriver) (device : IoTDevice)
    (h : (probeDevice o drivers device).2.1 = true) :
    ((probeDevice o drivers device).1).type ≠ .UNKNOWN ∧
    ((probeDevice o drivers device).1).isOnline = true ∧
    ((probeDevice o drivers device).1).capabilities &&& DeviceCapability.NETWORKING =
      DeviceCapability.NETWORKING ∧
    ((probeDevice o drivers device).1).hasHttpServer = device.hasHttpServer := by
  induction drivers generalizing device with
  | nil => simp [probeDevice] at h
  | cons driver rest ih =>
    simp only [probeDevice] at h ⊢
    rcases hp : driver.probe o device with ⟨d1, ok, tr⟩
    have hf := driverProbe_frame driver o device
    rw [hp] at hf
    by_cases hok : ok = true
    · have hs := driverProbe_success driver o device (by rw [hp]; exact hok)
      rw [hp] at hs
      simp only [hp, hok] at h ⊢
      simp
      exact ⟨hs.1, hs.2.1, hs.2.2, hf.2⟩
    · simp [Bool.not_eq_true] at hok
      simp only [hp, hok] at h ⊢
      rcases hrec : probeDevice o rest d1 with ⟨d2, ok2, tr2⟩
      rw [hrec] at h
      simp at h
      have h2 := ih d1 (by rw [hrec]; simpa using h)
      rw [hrec] at h2
      simp at h2 ⊢
      exact ⟨h2.1, h2.2.1, h2.2.2.1, h2.2.2.2.trans hf.2⟩

theorem probeDevice_cons_success (o : Oracle) (driver : BuiltinDriver)
    (rest : List BuiltinDriver) (device : IoTDevice)
    (h : (driver.probe o device).2.1 = true) :
    probeDevice o (driver :: rest) device = driver.probe o device := by
  simp only [probeDevice]
  rcases hp : driver.probe o device with ⟨d1, ok, tr⟩
  rw [hp] at h
  simp at h
  simp [h]

/-! Helper lemmas about the discovery engine. -/

theorem updateDeviceStatus_frame (device : IoTDevice) (b : Bool) (t : Nat) :
    (updateDeviceStatus device b t).1.id = device.id ∧
    (updateDeviceStatus device b t).1.name = device.name ∧
    (updateDeviceStatus device b t).1.macAddress = device.macAddress ∧
    (updateDeviceStatus device b t).1.ipAddress = device.ipAddress ∧
    (updateDeviceStatus device b t).1.hostname = device.hostname ∧
    (updateDeviceStatus device b t).1.type = device.type ∧
    (updateDeviceStatus device b t).1.capabilities = device.capabilities ∧
    (updateDeviceStatus device b t).1.manufacturer = device.manufacturer ∧
    (updateDeviceStatus device b t).1.model = device.model ∧
    (updateDeviceStatus device b t).1.firmwareVersion = device.firmwareVersion ∧
    (updateDeviceStatus device b t).1.apiVersion = device.apiVersion ∧
    (updateDeviceStatus device b t).1.baseUrl = device.baseUrl ∧
    (updateDeviceStatus device b t).1.hasHttpServer = device.hasHttpServer ∧
    (updateDeviceStatus device b t).1.discoveredAt = device.discoveredAt ∧
    (updateDeviceStatus device b t).1.endpoints = device.endpoints := by
  by_cases h : device.isOnline = b <;> simp [updateDeviceStatus, h]

theorem updateDeviceStatus_events (device : IoTDevice) (b : Bool) (t : Nat) :
    (updateDeviceStatus device b t).2 =
      if device.isOnline ≠ b then
        [.statusChanged { device with isOnline := b, lastSeen := t } b]
      else [] := by
  by_cases h : device.isOnline = b <;> simp [updateDeviceStatus, h]

theorem updateFirstWith_ids (p : IoTDevice → Bool)
    (f : IoTDevice → IoTDevice × List Event) (l : List IoTDevice)
    (hf : ∀ y, p y = true → ((f y).1).id = y.id) :
    ((updateFirstWith p f l).1).map (fun d => d.id) = l.map (fun d => d.id) := by
  induction l with
  | nil => simp [updateFirstWith]
  | cons d rest ih =>
    simp only [updateFirstWith]
    by_cases h : p d
    · rcases hfd : f d with ⟨d', evs⟩
      have h2 := hf d h
      rw [hfd] at h2
      simp [h, hfd]
      simpa using h2
    · rcases hrec : updateFirstWith p f rest with ⟨rest', evs⟩
      rw [hrec] at ih
      simp only [h] at *
      simp at ih ⊢
      exact ih

theorem updateFirstWith_events (p : IoTDevice → Bool)
    (f : IoTDevice → IoTDevice × List Event) (l : List IoTDevice)
    (hf : ∀ y, p y = true → ∀ dev, Event.discovered dev ∉ (f y).2) :
    ∀ dev, Event.discovered dev ∉ (updateFirstWith p f l).2 := by
  induction l with
  | nil => simp [updateFirstWith]
  | cons d rest ih =>
    simp only [updateFirstWith]
    by_cases h : p d
    · rcases hfd : f d with ⟨d', evs⟩
      have := hf d h
      rw [hfd] at this
      simpa [h, hfd] using this
    · rcases hrec : updateFirstWith p f rest with ⟨rest', evs⟩
      rw [hrec] at ih
      simp only [h] at *
      simpa using ih

set_option linter.unnecessarySeqFocus false in
theorem refreshExistingDevice_id (o : Oracle) (client : ClientInfo) (now : Nat)
    (device : IoTDevice) :
    (refreshExistingDevice o client now device).1.id = device.id := by
  simp only [refreshExistingDevice, updateDeviceStatus]
  by_cases hh : device.hasHttpServer <;> simp [hh] <;> (repeat' split) <;> simp

set_option linter.unnecessarySeqFocus false in
theorem refreshExistingDevice_events (o : Oracle) (client : ClientInfo) (now : Nat)
    (device : IoTDevice) :
    ∀ dev, Event.discovered dev ∉ (refreshExistingDevice o client now device).2 := by
  intro dev
  simp only [refreshExistingDevice, updateDeviceStatus]
  by_cases hh : device.hasHttpServer <;> simp [hh] <;> (repeat' split) <;> simp

theorem markMissingOffline_map (clients : List ClientInfo) (now : Nat)
    (l : List IoTDevice) :
    ((markMissingOffline clients now l).1).map
        (fun d => (d.id, d.type, d.capabilities, d.hasHttpServer)) =
      l.map (fun d => (d.id, d.type, d.capabilities, d.hasHttpServer)) := by
  induction l with
  | nil => simp [markMissingOffline]
  | cons d rest ih =>
    simp only [markMissingOffline]
    rcases hrec : markMissingOffline clients now rest with ⟨rest', evs2⟩
    rw [hrec] at ih
    by_cases h : (!clients.any fun client => equalsIgnoreCase d.macAddress client.macAddress) && d.isOnline
    · simp only [h]
      have hf := updateDeviceStatus_frame d false now
      simp at ih ⊢
      exact ⟨⟨hf.1, hf.2.2.2.2.2.1, hf.2.2.2.2.2.2.1, hf.2.2.2.2.2.2.2.2.2.2.2.2.1⟩, ih⟩
    · simp only [h]
      simp at ih ⊢
      exact ih

theorem markMissingOffline_events (clients : List ClientInfo) (now : Nat)
    (l : List IoTDevice) :
    ∀ dev, Event.discovered dev ∉ (markMissingOffline clients now l).2 := by
  intro dev
  induction l with
  | nil => simp [markMissingOffline]
  | cons d rest ih =>
    simp only [markMissingOffline]
    rcases hrec : markMissingOffline clients now rest with ⟨rest', evs2⟩
    rw [hrec] at ih
    by_cases h : (!clients.any fun client => equalsIgnoreCase d.macAddress client.macAddress) && d.isOnline
    · simp only [h]
      simp [updateDeviceStatus_events]
      simpa using ih
    · simp only [h]
      simpa using ih

theorem processClient_ids (drivers : List BuiltinDriver) (o : Oracle) (now : Nat)
    (acc : ScanAcc) (client : ClientInfo) :
    ∃ extra, ((processClient drivers o now acc client).devices).map (fun d => d.id) =
      acc.devices.map (fun d => d.id) ++ extra := by
  simp only [processClient]
  by_cases hip : client.ipAddress == "0.0.0.0"
  · exact ⟨[], by simp [hip]⟩
  · simp only [hip]
    cases hfind : acc.devices.find?
        (fun device => device.id == createDeviceId client.macAddress) with
    | none =>
      simp only [hfind]
      by_cases hhttp : (enrolledDevice o client now).hasHttpServer
      · rcases hpd : probeDevice o drivers (enrolledDevice o client now) with ⟨probed, ok, tr⟩
        by_cases hok : ok = true
        · refine ⟨[{ probed with isOnline := true }.id], ?_⟩
          simp [hhttp, hpd, hok]
        · simp [Bool.not_eq_true] at hok
          exact ⟨[], by simp [hhttp, hpd, hok]⟩
      · simp [Bool.not_eq_true] at hhttp
        exact ⟨[], by simp [hhttp]⟩
    | some x =>
      simp only [hfind]
      refine ⟨[], ?_⟩
      rcases hupd : updateFirstWith (fun device => device.id == createDeviceId client.macAddress)
        (refreshExistingDevice o client now) acc.devices with ⟨devices', evs⟩
      have h2 := updateFirstWith_ids
        (fun device => device.id == createDeviceId client.macAddress)
        (refreshExistingDevice o client now) acc.devices
        (fun y _ => refreshExistingDevice_id o client now y)
      rw [hupd] at h2
      simpa [hupd] using h2

theorem processClient_events (drivers : List BuiltinDriver) (o : Oracle) (now : Nat)
    (acc : ScanAcc) (client : ClientInfo)
    (hacc : ∀ dev, Event.discovered dev ∈ acc.events →
      dev.type ≠ .UNKNOWN ∧
      dev.capabilities &&& DeviceCapability.NETWORKING = DeviceCapability.NETWORKING ∧
      dev.hasHttpServer = true ∧ dev.isOnline = true) :
    ∀ dev, Event.discovered dev ∈ (processClient drivers o now acc client).events →
      dev.type ≠ .UNKNOWN ∧
      dev.capabilities &&& DeviceCapability.NETWORKING = DeviceCapability.NETWORKING ∧
      dev.hasHttpServer = true ∧ dev.isOnline = true := by
  intro dev
  simp only [processClient]
  by_cases hip : client.ipAddress == "0.0.0.0"
  · simpa [hip] using hacc dev
  · simp only [hip]
    cases hfind : acc.devices.find?
        (fun device => device.id == createDeviceId client.macAddress) with
    | none =>
      simp only [hfind]
      by_cases hhttp : (enrolledDevice o client now).hasHttpServer
      · rcases hpd : probeDevice o drivers (enrolledDevice o client now) with ⟨probed, ok, tr⟩
        by_cases hok : ok = true
        · simp only [hhttp, hpd, hok, if_pos]
          have hgood := probeDevice_success o drivers (enrolledDevice o client now)
            (by rw [hpd]; exact hok)
          rw [hpd] at hgood
          simp at hgood
          intro hmem
          simp at hmem
          rcases hmem with hmem | hmem
          · exact hacc dev hmem
          · subst hmem
            refine ⟨hgood.1, hgood.2.2.1, ?_, by simp⟩
            simp
            rw [hgood.2.2.2]
            simpa [enrolledDevice] using hhttp
        · simp [Bool.not_eq_true] at hok
          simpa [hhttp, hpd, hok] using hacc dev
      · simp [Bool.not_eq_true] at hhttp
        simpa [hhttp] using hacc dev
    | some x =>
      simp only [hfind]
      rcases hupd : updateFirstWith (fun device => device.id == createDeviceId client.macAddress)
        (refreshExistingDevice o client now) acc.devices with ⟨devices', evs⟩
      have h2 := updateFirstWith_events
        (fun device => device.id == createDeviceId client.macAddress)
        (refreshExistingDevice o client now) acc.devices
        (fun y _ => refreshExistingDevice_events o client now y)
      rw [hupd] at h2
      intro hmem
      simp at hmem
      rcases hmem with hmem | hmem
      · exact hacc dev hmem
      · exact absurd hmem (h2 dev)

theorem processClients_ids (drivers : List BuiltinDriver) (o : Oracle) (now : Nat)
    (clients : List ClientInfo) (acc : ScanAcc) :
    ∃ extra, ((processClients drivers o now acc clients).devices).map (fun d => d.id) =
      acc.devices.map (fun d => d.id) ++ extra := by
  induction clients generalizing acc with
  | nil => exact ⟨[], by simp [processClients]⟩
  | cons client rest ih =>
    simp only [processClients]
    rcases processClient_ids drivers o now acc client with ⟨e1, h1⟩
    rcases ih (processClient drivers o now acc client) with ⟨e2, h2⟩
    exact ⟨e1 ++ e2, by rw [h2, h1, List.append_assoc]⟩

theorem processClients_events (drivers : List BuiltinDriver) (o : Oracle) (now : Nat)
    (clients : List ClientInfo) (acc : ScanAcc)
    (hacc : ∀ dev, Event.discovered dev ∈ acc.events →
      dev.type ≠ .UNKNOWN ∧
      dev.capabilities &&& DeviceCapability.NETWORKING = DeviceCapability.NETWORKING ∧
      dev.hasHttpServer = true ∧ dev.isOnline = true) :
    ∀ dev, Event.discovered dev ∈ (processClients drivers o now acc clients).events →
      dev.type ≠ .UNKNOWN ∧
      dev.capabilities &&& DeviceCapability.NETWORKING = DeviceCapability.NETWORKING ∧
      dev.hasHttpServer = true ∧ dev.isOnline = true := by
  induction clients generalizing acc with
  | nil => simpa [processClients] using hacc
  | cons client rest ih =>
    simp only [processClients]
    exact ih (processClient drivers o now acc client)
      (processClient_events drivers o now acc client hacc)

/-! The claim theorems. -/

/-- C7: the drivers' shared endpoint check counts an endpoint as present iff
the response status is in {200, 401, 403}; transport failures (status 0 or
negative) and all other statuses count as absent (and the check is a total
function — it never aborts a probe). -/
theorem C7_endpoint_presence (o : Oracle) (baseUrl endpoint : String) :
    (checkEndpoint o baseUrl endpoint = true ↔
      (o .get (baseUrl ++ endpoint) = 200 ∨ o .get (baseUrl ++ endpoint) = 401 ∨
        o .get (baseUrl ++ endpoint) = 403)) ∧
    (o .get (baseUrl ++ endpoint) ≤ 0 → checkEndpoint o baseUrl endpoint = false) := by
  constructor
  · simp [checkEndpoint, or_assoc]
  · intro h
    simp only [checkEndpoint, Bool.or_eq_false_iff, beq_eq_false_iff_ne]
    refine ⟨⟨?_, ?_⟩, ?_⟩ <;> omega

theorem C7_witness : checkEndpoint zeroOracle "http://a" "/b" = false :=
  (C7_endpoint_presence zeroOracle "http://a" "/b").2 (by decide)

/-- C6: any sequence of liveness rechecks applied through
`updateDeviceStatus` changes only `isOnline` and `lastSeen`; classification,
capabilities, endpoints and every descriptive field are untouched, and the
status callback fires exactly once per actual flag transition (never when the
recheck result equals the current flag). -/
theorem C6_liveness_frame_and_events (device : IoTDevice) (seq : List (Bool × Nat)) :
    (applyStatusSeq device seq).1.type = device.type ∧
    (applyStatusSeq device seq).1.capabilities = device.capabilities ∧
    (applyStatusSeq device seq).1.endpoints = device.endpoints ∧
    (applyStatusSeq device seq).1.id = device.id ∧
    (applyStatusSeq device seq).1.name = device.name ∧
    (applyStatusSeq device seq).1.macAddress = device.macAddress ∧
    (applyStatusSeq device seq).1.ipAddress = device.ipAddress ∧
    (applyStatusSeq device seq).1.hostname = device.hostname ∧
    (applyStatusSeq device seq).1.manufacturer = device.manufacturer ∧
    (applyStatusSeq device seq).1.model = device.model ∧
    (applyStatusSeq device seq).1.firmwareVersion = device.firmwareVersion ∧
    (applyStatusSeq device seq).1.apiVersion = device.apiVersion ∧
    (applyStatusSeq device seq).1.baseUrl = device.baseUrl ∧
    (applyStatusSeq device seq).1.hasHttpServer = device.hasHttpServer ∧
    (applyStatusSeq device seq).1.discoveredAt = device.discoveredAt ∧
    ((applyStatusSeq device seq).2).length =
      countTransitions device.isOnline (seq.map Prod.fst) := by
  induction seq generalizing device with
  | nil => simp [applyStatusSeq, countTransitions]
  | cons p rest ih =>
    rcases p with ⟨b, t⟩
    by_cases h : device.isOnline = b
    · have hu : updateDeviceStatus device b t = (device, []) := by
        simp [updateDeviceStatus, h]
      rcases hrec : applyStatusSeq device rest with ⟨d2, evs2⟩
      have hi := ih device
      rw [hrec] at hi
      rw [h] at hi
      simp only [applyStatusSeq, hu, hrec]
      simpa [countTransitions, h] using hi
    · have hu : updateDeviceStatus device b t =
          ({ device with isOnline := b, lastSeen := t },
            [.statusChanged { device with isOnline := b, lastSeen := t } b]) := by
        simp [updateDeviceStatus, h]
      rcases hrec : applyStatusSeq { device with isOnline := b, lastSeen := t } rest
        with ⟨d2, evs2⟩
      have hi := ih { device with isOnline := b, lastSeen := t }
      rw [hrec] at hi
      simp at hi
      simp only [applyStatusSeq, hu, hrec]
      obtain ⟨g1, g2, g3, g4, g5, g6, g7, g8, g9, g10, g11, g12, g13, g14, g15, g16⟩ := hi
      simp [countTransitions, h]
      exact ⟨g1, g2, g3, g4, g5, g6, g7, g8, g9, g10, g11, g12, g13, g14, g15, by omega⟩

/-- C3 (code bug): on a device whose surface answers 200 on `/` and `/ws`,
`GenericRESTDriver::probe` succeeds, `detectCapabilities` stores
NETWORKING|WEBSOCKET into the device, but the subsequent
`setDeviceProperties` call overwrites the capability bitmask with the local
variable holding NETWORKING only — the detected WebSocket bit is lost and
the write sequence is not monotone, contradicting the claimed invariant. -/
theorem C3_generic_capability_overwrite :
    (genericProbe wsRootOracle wsDevice).2.1 = true ∧
    (detectCapabilities wsRootOracle
        (genericEndpointLoop wsRootOracle wsDevice 0 getCommonEndpoints).1).1.capabilities =
      (DeviceCapability.NETWORKING ||| DeviceCapability.WEBSOCKET) ∧
    (genericProbe wsRootOracle wsDevice).1.capabilities = DeviceCapability.NETWORKING ∧
    (genericProbe wsRootOracle wsDevice).1.capabilities &&& DeviceCapability.WEBSOCKET = 0 := by
  decide

/-- C5 counterexample: under the oracle worded exactly as Scenario A (camera
status and capture answer 200, every other request — including the root-path
presence check — transport-fails), one scan adds no device at all and fires
no callback, because `checkHttpServer` fails before any probing. -/
theorem C5_counterexample :
    (scanForDevices builtinDrivers [clientA] camOnlyOracle 5000 {}).st.devices = [] ∧
    (scanForDevices builtinDrivers [clientA] camOnlyOracle 5000 {}).newDevices = 0 ∧
    (scanForDevices builtinDrivers [clientA] camOnlyOracle 5000 {}).events = [] := by
  decide

/-- C5 amended: when the root path additionally answers a real status (404
here) so the presence check passes, one scan adds exactly one device,
classified ESP32 Camera with capabilities exactly CAMERA|NETWORKING, and the
device-discovered callback fires exactly once. -/
theorem C5_amended_scenarioA :
    (scanForDevices builtinDrivers [clientA] camRootOracle 5000 {}).st.devices.map
        (fun d => (d.type, d.capabilities, d.isOnline)) =
      [(.ESP32_CAMERA, DeviceCapability.CAMERA ||| DeviceCapability.NETWORKING, true)] ∧
    (scanForDevices builtinDrivers [clientA] camRootOracle 5000 {}).newDevices = 1 ∧
    (scanForDevices builtinDrivers [clientA] camRootOracle 5000 {}).events.map isDiscovered =
      [true] := by
  decide

/-- C4 counterexample: a client whose hardware address appears for the first
time with a nonzero network address, whose root path answers (so the HTTP
presence check passes) but whose probing fails, leaves the catalog empty — no
Unclassified Device record is created, contradicting the claimed lifecycle. -/
theorem C4_counterexample :
    clientA.ipAddress ≠ "0.0.0.0" ∧
    checkHttpServer rootOnlyOracle clientA.ipAddress = true ∧
    (probeDevice rootOnlyOracle builtinDrivers
      (enrolledDevice rootOnlyOracle clientA 5000)).2.1 = false ∧
    (scanForDevices builtinDrivers [clientA] rootOnlyOracle 5000 {}).st.devices = [] := by
  decide

/-- C9 counterexample: after `startManualScan` resets the marker to 0, a loop
iteration at uptime 1000 ms with the default 30000 ms interval does *not*
scan (the state is returned unchanged and no event fires), because the check
`now - 0 >= interval` compares uptime itself against the interval — the claim
"runs a scan immediately, regardless of the configured interval" fails. -/
theorem C9_counterexample :
    (startManualScan manualScanState).lastDiscoveryScan = 0 ∧
    1000 < (startManualScan manualScanState).discoveryInterval ∧
    discoveryIter builtinDrivers [] zeroOracle 1000 (startManualScan manualScanState) =
      (startManualScan manualScanState, []) := by
  decide

/-- C1: `executeDeviceCommand` returns NotFound when no catalog entry has
the id, else Offline when the entry is not online, else NoDriver when no
registered driver's `canHandle` accepts it, and otherwise delegates to the
first accepting driver and reports its boolean result; in the NotFound and
Offline cases the transport call list is empty. -/
theorem C1_executeDeviceCommand_dispatch (drivers : List BuiltinDriver)
    (devices : List IoTDevice) (deviceId command : String) (params : CmdParams)
    (o : Oracle) :
    ((∀ d ∈ devices, d.id ≠ deviceId) →
      executeDeviceCommand drivers devices deviceId command params o = (.notFound, [])) ∧
    (∀ device, getDevice devices deviceId = some device → device.isOnline = false →
      executeDeviceCommand drivers devices deviceId command params o = (.offline, [])) ∧
    (∀ device, getDevice devices deviceId = some device → device.isOnline = true →
      (∀ driver ∈ drivers, driver.canHandle device = false) →
      executeDeviceCommand drivers devices deviceId command params o = (.noDriver, [])) ∧
    (∀ device driver, getDevice devices deviceId = some device → device.isOnline = true →
      findDriverForDevice drivers device = some driver →
      executeDeviceCommand drivers devices deviceId command params o =
        ((if (driver.executeCommand o device command params).1 then .success
          else .commandFailed),
          (driver.executeCommand o device command params).2)) := by
  refine ⟨?_, ?_, ?_, ?_⟩
  · intro h
    have hnone : getDevice devices deviceId = none := by
      simp only [getDevice, List.find?_eq_none]
      intro d hd
      simpa using h d hd
    simp [executeDeviceCommand, hnone]
  · intro device hdev hoff
    simp [executeDeviceCommand, hdev, hoff]
  · intro device hdev hon hnodrv
    have hnone : findDriverForDevice drivers device = none := by
      simp only [findDriverForDevice, List.find?_eq_none]
      intro drv hdrv
      simpa using hnodrv drv hdrv
    simp [executeDeviceCommand, hdev, hon, hnone]
  · intro device driver hdev hon hfind
    rcases hexec : driver.executeCommand o device command params with ⟨ok, tr⟩
    simp [executeDeviceCommand, hdev, hon, hfind, hexec]

theorem C1_witness :
    executeDeviceCommand builtinDrivers [] "iot_aabbccddee01" "capture" {} zeroOracle =
      (.notFound, []) :=
  (C1_executeDeviceCommand_dispatch builtinDrivers [] "iot_aabbccddee01" "capture" {}
    zeroOracle).1 (by simp)

/-- C2: `probeDevice` tries the registered drivers in registration order and
stops at the first whose probe succeeds (its result — device, flag and
transport-call trace — is exactly that driver's, so later drivers are never
called); consequently a device matched by both the specific camera driver and
the generic fallback is classified ESP32 Camera under registry order
[camera, generic] and Custom Device under order [generic, camera]. -/
theorem C2_first_match_ordering (o : Oracle) (device : IoTDevice)
    (hcam : (BuiltinDriver.camera.probe o device).2.1 = true)
    (hgen : (BuiltinDriver.generic.probe o device).2.1 = true) :
    (∀ (driver : BuiltinDriver) (rest : List BuiltinDriver) (d : IoTDevice),
      (driver.probe o d).2.1 = true →
      probeDevice o (driver :: rest) d = driver.probe o d) ∧
    (probeDevice o [.camera, .generic] device).1.type = .ESP32_CAMERA ∧
    (probeDevice o [.camera, .generic] device).2.2 =
      (BuiltinDriver.camera.probe o device).2.2 ∧
    (probeDevice o [.generic, .camera] device).1.type = .CUSTOM_DEVICE ∧
    (probeDevice o [.generic, .camera] device).2.2 =
      (BuiltinDriver.generic.probe o device).2.2 := by
  have hc := probeDevice_cons_success o .camera [.generic] device hcam
  have hg := probeDevice_cons_success o .generic [.camera] device hgen
  refine ⟨fun driver rest d h => probeDevice_cons_success o driver rest d h, ?_, ?_, ?_, ?_⟩
  · rw [hc]
    exact (cameraProbe_success o device hcam).1
  · rw [hc]
  · rw [hg]
    exact (genericProbe_success o device hgen).1
  · rw [hg]

theorem C2_witness :
    (probeDevice allOkOracle [.camera, .generic] wsDevice).1.type = .ESP32_CAMERA ∧
    (probeDevice allOkOracle [.generic, .camera] wsDevice).1.type = .CUSTOM_DEVICE :=
  ⟨(C2_first_match_ordering allOkOracle wsDevice (by decide) (by decide)).2.1,
   (C2_first_match_ordering allOkOracle wsDevice (by decide) (by decide)).2.2.2.1⟩

/-- C9 amended: `startManualScan` only resets the time-of-last-scan marker
(catalog, statistics, flags and interval are untouched, and the function
issues no transport call — it does not even receive the transport client);
the next loop iteration then runs a scan provided the current uptime is at
least the configured interval (which always holds in steady state), because
the loop compares `now - 0` — the uptime itself — against the interval. -/
theorem C9_manual_scan_semantics (st : DiscoveryState) (drivers : List BuiltinDriver)
    (clients : List ClientInfo) (o : Oracle) (now : Nat)
    (h : st.discoveryInterval ≤ now) :
    (startManualScan st).devices = st.devices ∧
    (startManualScan st).totalScans = st.totalScans ∧
    (startManualScan st).devicesDiscovered = st.devicesDiscovered ∧
    (startManualScan st).lastScanDuration = st.lastScanDuration ∧
    (startManualScan st).discoveryEnabled = st.discoveryEnabled ∧
    (startManualScan st).discoveryInterval = st.discoveryInterval ∧
    (startManualScan st).lastDiscoveryScan = 0 ∧
    discoveryIter drivers clients o now (startManualScan st) =
      ({ (scanForDevices drivers clients o now (startManualScan st)).st with
          lastDiscoveryScan := now },
        (scanForDevices drivers clients o now (startManualScan st)).events) := by
  refine ⟨rfl, rfl, rfl, rfl, rfl, rfl, rfl, ?_⟩
  have hcond : now - (startManualScan st).lastDiscoveryScan ≥
      (startManualScan st).discoveryInterval := by
    simp [startManualScan]
    omega
  simp [discoveryIter, hcond]

theorem C9_witness :
    discoveryIter builtinDrivers [] zeroOracle 30000 (startManualScan manualScanState) =
      ({ (scanForDevices builtinDrivers [] zeroOracle 30000
            (startManualScan manualScanState)).st with lastDiscoveryScan := 30000 },
        (scanForDevices builtinDrivers [] zeroOracle 30000
          (startManualScan manualScanState)).events) :=
  (C9_manual_scan_semantics manualScanState builtinDrivers [] zeroOracle 30000
    (by decide)).2.2.2.2.2.2.2

theorem markMissingOffline_ids (clients : List ClientInfo) (now : Nat)
    (l : List IoTDevice) :
    ((markMissingOffline clients now l).1).map (fun d => d.id) =
      l.map (fun d => d.id) := by
  have h := congrArg (List.map (fun t : String × DeviceType × Nat × Bool => t.1))
    (markMissingOffline_map clients now l)
  simpa [List.map_map, Function.comp] using h

/-- C8: no operation of the subsystem ever removes a catalog entry: a scan
only appends device ids (the old id list is a prefix of the new one),
`refreshDevice` re-probes in place without changing the id list, and the
manual-scan trigger and discovery start/stop do not touch the catalog at
all. -/
theorem C8_catalog_never_shrinks (drivers : List BuiltinDriver)
    (clients : List ClientInfo) (o : Oracle) (now : Nat) (st : DiscoveryState)
    (devices : List IoTDevice) (deviceId : String) (o2 : Oracle) (intervalMs : Nat) :
    (∃ extra, ((scanForDevices drivers clients o now st).st.devices).map (fun d => d.id) =
      st.devices.map (fun d => d.id) ++ extra) ∧
    ((refreshDevice drivers devices deviceId o2).1).map (fun d => d.id) =
      devices.map (fun d => d.id) ∧
    (startManualScan st).devices = st.devices ∧
    (startDiscovery st intervalMs).devices = st.devices ∧
    (stopDiscovery st).devices = st.devices := by
  refine ⟨?_, ?_, rfl, ?_, ?_⟩
  · rcases processClients_ids drivers o now clients
      { devices := st.devices, newDevices := 0, discovered := 0, events := [] }
      with ⟨extra, hp⟩
    refine ⟨extra, ?_⟩
    simp only [scanForDevices]
    rcases hm : markMissingOffline clients now
        (processClients drivers o now
          { devices := st.devices, newDevices := 0, discovered := 0, events := [] }
          clients).devices
      with ⟨devices2, evs2⟩
    have hids := markMissingOffline_ids clients now
      (processClients drivers o now
        { devices := st.devices, newDevices := 0, discovered := 0, events := [] }
        clients).devices
    rw [hm] at hids
    simpa using hids.trans hp
  · simp only [refreshDevice]
    cases hget : getDevice devices deviceId with
    | none => simp
    | some device =>
      by_cases hh : device.hasHttpServer
      · simp only [hh, Bool.not_true, Bool.false_eq_true, if_false]
        cases hfind : findDriverForDevice drivers device with
        | none => simp
        | some driver =>
          simp only []
          rcases hp : driver.probe o2 device with ⟨probed, ok, tr⟩
          rcases hupd : updateFirstWith (fun d => d.id == deviceId)
            (fun _ => (probed, [])) devices with ⟨devices', evs⟩
          have hdevid : device.id = deviceId := by
            simp only [getDevice] at hget
            have h2 := List.find?_some hget
            simpa using h2
          have hpid : probed.id = device.id := by
            have h2 := driverProbe_frame driver o2 device
            rw [hp] at h2
            simpa using h2.1
          have hids := updateFirstWith_ids (fun d => d.id == deviceId)
            (fun _ => (probed, [])) devices
            (fun y hy => by
              simp only [beq_iff_eq] at hy
              simp [hpid, hdevid, hy])
          rw [hupd] at hids
          simpa [hupd] using hids
      · simp [Bool.not_eq_true] at hh
        simp [hh]
  · simp only [startDiscovery]
    split <;> rfl
  · simp only [stopDiscovery]
    split <;> rfl

/-- C10: with the three drivers registered by `begin` in place, every device
inserted into the catalog — witnessed by its device-discovered event, fired
at the moment of insertion — is classified (type not UNKNOWN), carries the
NETWORKING capability bit, has its HTTP-server flag set and is online. -/
theorem C10_discovered_devices_wellformed (clients : List ClientInfo) (o : Oracle)
    (now : Nat) (st : DiscoveryState) :
    ∀ device,
      Event.discovered device ∈ (scanForDevices builtinDrivers clients o now st).events →
      device.type ≠ .UNKNOWN ∧
      device.capabilities &&& DeviceCapability.NETWORKING = DeviceCapability.NETWORKING ∧
      device.hasHttpServer = true ∧ device.isOnline = true := by
  intro device
  simp only [scanForDevices]
  rcases hm : markMissingOffline clients now
      (processClients builtinDrivers o now
        { devices := st.devices, newDevices := 0, discovered := 0, events := [] }
        clients).devices
    with ⟨devices2, evs2⟩
  intro hmem
  simp at hmem
  rcases hmem with hmem | hmem
  · exact processClients_events builtinDrivers o now clients
      { devices := st.devices, newDevices := 0, discovered := 0, events := [] }
      (by simp) device hmem
  · have h2 := markMissingOffline_events clients now
      (processClients builtinDrivers o now
        { devices := st.devices, newDevices := 0, discovered := 0, events := [] }
        clients).devices device
    rw [hm] at h2
    exact absurd hmem h2

theorem C10_witness :
    scenarioDevice.type ≠ .UNKNOWN ∧
    scenarioDevice.capabilities &&& DeviceCapability.NETWORKING =
      DeviceCapability.NETWORKING ∧
    scenarioDevice.hasHttpServer = true ∧ scenarioDevice.isOnline = true :=
  C10_discovered_devices_wellformed [clientA] camRootOracle 5000 {} scenarioDevice
    (by decide)

theorem scan_single_new_client_success (o : Oracle) (now : Nat) (st : DiscoveryState)
    (client : ClientInfo)
    (hip : client.ipAddress ≠ "0.0.0.0")
    (hnew : ∀ d ∈ st.devices, d.id ≠ createDeviceId client.macAddress)
    (hhttp : (enrolledDevice o client now).hasHttpServer = true)
    (hok : (probeDevice o builtinDrivers (enrolledDevice o client now)).2.1 = true) :
    ∃ d ∈ (scanForDevices builtinDrivers [client] o now st).st.devices,
      d.id = createDeviceId client.macAddress ∧ d.type ≠ .UNKNOWN := by
  have hbip : (client.ipAddress == "0.0.0.0") = false := by
    simpa using hip
  have hfind : st.devices.find?
      (fun device => device.id == createDeviceId client.macAddress) = none := by
    rw [List.find?_eq_none]
    intro d hd
    simpa using hnew d hd
  rcases hpd : probeDevice o builtinDrivers (enrolledDevice o client now)
    with ⟨probed, ok, tr⟩
  rw [hpd] at hok
  simp only at hok
  have hgood := probeDevice_success o builtinDrivers (enrolledDevice o client now)
    (by rw [hpd]; exact hok)
  rw [hpd] at hgood
  simp only at hgood
  have hpid : probed.id = createDeviceId client.macAddress := by
    have h2 := probeDevice_frame o builtinDrivers (enrolledDevice o client now)
    rw [hpd] at h2
    have h3 : (enrolledDevice o client now).id = createDeviceId client.macAddress := by
      simp [enrolledDevice, newDeviceFor]
    simpa [h3] using h2.1
  have hstep : processClients builtinDrivers o now
      { devices := st.devices, newDevices := 0, discovered := 0, events := [] } [client] =
      { devices := st.devices ++ [{ probed with isOnline := true }],
        newDevices := 1, discovered := 1,
        events := [.discovered { probed with isOnline := true }] } := by
    simp [processClients, processClient, hbip, hfind, hhttp, hpd, hok]
  simp only [scanForDevices, hstep]
  rcases hm : markMissingOffline [client] now
      (st.devices ++ [{ probed with isOnline := true }]) with ⟨devices2, evs2⟩
  rw [hm]
  have hmap := markMissingOffline_map [client] now
    (st.devices ++ [{ probed with isOnline := true }])
  rw [hm] at hmap
  have h4 : (({ probed with isOnline := true } : IoTDevice).id,
      ({ probed with isOnline := true } : IoTDevice).type,
      ({ probed with isOnline := true } : IoTDevice).capabilities,
      ({ probed with isOnline := true } : IoTDevice).hasHttpServer) ∈
      devices2.map (fun d => (d.id, d.type, d.capabilities, d.hasHttpServer)) := by
    rw [hmap]
    simp
  rcases List.mem_map.mp h4 with ⟨d, hd, hfd⟩
  refine ⟨d, hd, ?_, ?_⟩
  · have : d.id = ({ probed with isOnline := true } : IoTDevice).id := congrArg Prod.fst hfd
    simpa [hpid] using this
  · have ht : d.type = probed.type := by
      have := congrArg (fun t : String × DeviceType × Nat × Bool => t.2.1) hfd
      simpa using this
    rw [ht]
    exact hgood.1

theorem scan_single_new_client_failure (o : Oracle) (now : Nat) (st : DiscoveryState)
    (client : ClientInfo)
    (hip : client.ipAddress ≠ "0.0.0.0")
    (hnew : ∀ d ∈ st.devices, d.id ≠ createDeviceId client.macAddress)
    (hfail : (enrolledDevice o client now).hasHttpServer = false ∨
      (probeDevice o builtinDrivers (enrolledDevice o client now)).2.1 = false) :
    ((scanForDevices builtinDrivers [client] o now st).st.devices).map (fun d => d.id) =
      st.devices.map (fun d => d.id) := by
  have hbip : (client.ipAddress == "0.0.0.0") = false := by
    simpa using hip
  have hfind : st.devices.find?
      (fun device => device.id == createDeviceId client.macAddress) = none := by
    rw [List.find?_eq_none]
    intro d hd
    simpa using hnew d hd
  have hstep : processClients builtinDrivers o now
      { devices := st.devices, newDevices := 0, discovered := 0, events := [] } [client] =
      { devices := st.devices, newDevices := 0, discovered := 0, events := [] } := by
    rcases hfail with hfail | hfail
    · simp [processClients, processClient, hbip, hfind, hfail]
    · rcases hpd : probeDevice o builtinDrivers (enrolledDevice o client now)
        with ⟨probed, ok, tr⟩
      rw [hpd] at hfail
      simp only at hfail
      by_cases hhttp : (enrolledDevice o client now).hasHttpServer
      · simp [processClients, processClient, hbip, hfind, hhttp, hpd, hfail]
      · simp [Bool.not_eq_true] at hhttp
        simp [processClients, processClient, hbip, hfind, hhttp]
  simp only [scanForDevices, hstep]
  rcases hm : markMissingOffline [client] now st.devices with ⟨devices2, evs2⟩
  have hids := markMissingOffline_ids [client] now st.devices
  rw [hm] at hids
  simpa using hids

/-- C4 amended: a Device is created in the catalog the first time its
hardware address appears with a nonzero network address *only if* the HTTP
presence check passes and some driver's probe succeeds in that cycle; when
probing fails, the client is left entirely absent from the catalog (the id
list is unchanged, there is no Unclassified placeholder), and it is retried
from scratch on a later scan — a scan under an oracle that makes presence
and probing succeed then creates the classified Device. -/
theorem C4_device_creation (o : Oracle) (now : Nat) (st : DiscoveryState)
    (client : ClientInfo)
    (hip : client.ipAddress ≠ "0.0.0.0")
    (hnew : ∀ d ∈ st.devices, d.id ≠ createDeviceId client.macAddress) :
    ((enrolledDevice o client now).hasHttpServer = true →
      (probeDevice o builtinDrivers (enrolledDevice o client now)).2.1 = true →
      ∃ d ∈ (scanForDevices builtinDrivers [client] o now st).st.devices,
        d.id = createDeviceId client.macAddress ∧ d.type ≠ .UNKNOWN) ∧
    (((enrolledDevice o client now).hasHttpServer = false ∨
      (probeDevice o builtinDrivers (enrolledDevice o client now)).2.1 = false) →
      ((scanForDevices builtinDrivers [client] o now st).st.devices).map (fun d => d.id) =
        st.devices.map (fun d => d.id)) ∧
    (((enrolledDevice o client now).hasHttpServer = false ∨
      (probeDevice o builtinDrivers (enrolledDevice o client now)).2.1 = false) →
      ∀ (o2 : Oracle) (now2 : Nat),
        (enrolledDevice o2 client now2).hasHttpServer = true →
        (probeDevice o2 builtinDrivers (enrolledDevice o2 client now2)).2.1 = true →
        ∃ d ∈ (scanForDevices builtinDrivers [client] o2 now2
            (scanForDevices builtinDrivers [client] o now st).st).st.devices,
          d.id = createDeviceId client.macAddress ∧ d.type ≠ .UNKNOWN) := by
  refine ⟨fun hhttp hok => scan_single_new_client_success o now st client hip hnew hhttp hok,
    fun hfail => scan_single_new_client_failure o now st client hip hnew hfail, ?_⟩
  intro hfail o2 now2 hhttp2 hok2
  have hids := scan_single_new_client_failure o now st client hip hnew hfail
  have hnew2 : ∀ d ∈ (scanForDevices builtinDrivers [client] o now st).st.devices,
      d.id ≠ createDeviceId client.macAddress := by
    intro d hd
    have hmem : d.id ∈ ((scanForDevices builtinDrivers [client] o now st).st.devices).map
        (fun d => d.id) := List.mem_map.mpr ⟨d, hd, rfl⟩
    rw [hids] at hmem
    rcases List.mem_map.mp hmem with ⟨d0, hd0, hid0⟩
    rw [← hid0]
    exact hnew d0 hd0
  exact scan_single_new_client_success o2 now2
    (scanForDevices builtinDrivers [client] o now st).st client hip hnew2 hhttp2 hok2

theorem C4_witness :
    ∃ d ∈ (scanForDevices builtinDrivers [clientA] camRootOracle 5000 {}).st.devices,
      d.id = createDeviceId clientA.macAddress ∧ d.type ≠ .UNKNOWN :=
  (C4_device_creation camRootOracle 5000 {} clientA (by decide) (by decide)).1
    (by decide) (by decide)

end IoTMgr
